import Mathlib

/-!
Verification of the PublishCallback completion adapter
(src/PublishCallback.h of rickkas7/publish-with-callback).

The class is embedded shallowly. Machine addresses are modelled as `Nat`
identifiers; the user completion handler (a std::function that may be NULL)
is modelled as `Option Nat`, where the `Nat` identifies which handler is
stored; the `const void *` payload handed to a handler is `Option Nat`
(`none` is NULL). Each C++ member function becomes a pure Lean function
from the object state to the new object state together with an ordered
trace of observable events: writes to the `complete` flag, the single call
made to the external primitive `spark_send_event`, and calls made to the
user completion handler. The trace order matches the statement order of
the source, so temporal claims (handler runs before `complete` is set,
handler runs within `publish_event`) are statements about trace equality.

`spark_send_event` itself lives in Device OS, outside this repository: its
return value is a parameter (`sparkAccepted`) of the embedded
`publish_event`, and its exactly-once callback contract is modelled by the
driver `invokeRun` below, which fires `staticCallback` exactly once when
the primitive accepted the request and never when it rejected it.
-/

/-- Modelled from the spec: the value of `sizeof(spark_send_event_data)`.
The struct is declared in Device OS headers, not in this repository; the
concrete number is immaterial to every claim, which only compare the
stored `size` field against this constant. -/
def sizeof_spark_send_event_data : Nat := 16

/-- Modelled from the spec: `Error::UNKNOWN`, the generic error code of
Device OS used by the synchronous-rejection fallback. The concrete value
comes from headers outside this repository and is immaterial to the
claims, which only compare against this constant. -/
def Error.UNKNOWN : Int := -100

/-- A C function pointer value as storable in `handler_callback`: either
NULL or the address of the static trampoline `PublishCallback::staticCallback`
(the only function whose address the source ever stores there). -/
inductive FnPtr where
  | null
  | staticCallbackAddr
deriving DecidableEq, Repr

/-- The registration record `spark_send_event_data` (fields as in Device
OS and as written by `initEventData`): its own size, the completion
function pointer, and the opaque per-call data pointer. -/
structure SparkSendEventData where
  size : Nat
  handler_callback : FnPtr
  handler_data : Nat
deriving DecidableEq, Repr

/-- The `PublishCallback` object. `self` is the machine address of the
instance (the value of `this`); `eventData`, `complete` and `completion`
are the three data members of the class, in declaration order. -/
structure PublishCallback where
  self : Nat
  eventData : SparkSendEventData
  complete : Bool
  completion : Option Nat
deriving DecidableEq, Repr

/-- The argument tuple of one call to the external primitive
`spark_send_event(eventName, eventData, ttl, flags.value(), this)`.
`reserved` is the context pointer argument, `this` in the source. -/
structure SparkSendCall where
  eventName : String
  eventData : Option String
  ttl : Int
  flags : Nat
  reserved : Nat
deriving DecidableEq, Repr

/-- Modelled from the spec: `PublishFlags` (Device OS, outside this
repository) is a bit-flag wrapper exposing `value()`; composition of two
flag values is bitwise OR. -/
structure PublishFlags where
  value : Nat
deriving DecidableEq, Repr

/-- Modelled from the spec: `flags1 | flags2` on `PublishFlags` is bitwise
OR of the raw values. -/
def PublishFlags.or (a b : PublishFlags) : PublishFlags :=
  ⟨a.value ||| b.value⟩

/-- Modelled from the spec: the default-constructed `PublishFlags()` used
as the default argument of the `publish` overloads (empty flag set). -/
def PublishFlags.empty : PublishFlags := ⟨0⟩

/-- One observable event of an operation, in program order: a write to the
member `complete`, the call to the external primitive together with the
boolean it returned, or one invocation of the user completion handler with
the error code and payload passed to it. -/
inductive Event where
  | setComplete (value : Bool)
  | sparkSend (call : SparkSendCall) (accepted : Bool)
  | handlerCall (handler : Nat) (err : Int) (data : Option Nat)
deriving DecidableEq, Repr

/-- Whether an event is an invocation of the user completion handler. -/
def Event.isHandlerCall : Event → Bool
  | .handlerCall _ _ _ => true
  | _ => false

/-- Number of user-handler invocations in a trace. -/
def handlerCallCount (tr : List Event) : Nat :=
  (tr.filter Event.isHandlerCall).length

/-- The indeterminate contents of the POD member `eventData` before
`initEventData` runs in the constructor body (the constructor initializer
list does not mention it). `initEventData` overwrites every field, so this
placeholder never survives construction. -/
def uninitEventData : SparkSendEventData :=
  ⟨0, FnPtr.null, 0⟩

/-- `initEventData()`: writes the three fields of the member `eventData`:
`size = sizeof(spark_send_event_data)`, `handler_callback = staticCallback`,
`handler_data = this`. -/
def initEventData (s : PublishCallback) : PublishCallback :=
  { s with eventData := ⟨sizeof_spark_send_event_data, FnPtr.staticCallbackAddr, s.self⟩ }

/-- The no-argument constructor `PublishCallback()`: initializer list sets
`complete(false)` (the handler slot is the empty `std::function`, NULL),
then the body calls `initEventData()`. `self` is the address at which the
instance is created. -/
def PublishCallback.ctor (self : Nat) : PublishCallback :=
  initEventData ⟨self, uninitEventData, false, none⟩

/-- The constructor `PublishCallback(completion)`: initializer list sets
`complete(false)` and `completion(completion)`, then the body calls
`initEventData()`. -/
def PublishCallback.ctorWithCompletion (self : Nat) (completion : Nat) : PublishCallback :=
  initEventData ⟨self, uninitEventData, false, some completion⟩

/-- `withCallback(completion)`: stores the handler and returns `*this`
(modelled as the updated state; the returned reference is that state). -/
def withCallback (s : PublishCallback) (completion : Nat) : PublishCallback :=
  { s with completion := some completion }

/-- `publish_event(eventName, eventData, ttl, flags)`. In source order:
sets `complete = false`; calls
`spark_send_event(eventName, eventData, ttl, flags.value(), this)`; if the
primitive returned false and `completion != NULL`, calls
`completion(Error::UNKNOWN, NULL)`. The boolean the external primitive
returns is the parameter `sparkAccepted`. No branch of the function writes
`complete = true`. -/
def publish_event (s : PublishCallback) (eventName : String) (eventData : Option String)
    (ttl : Int) (flags : PublishFlags) (sparkAccepted : Bool) :
    PublishCallback × List Event :=
  let s := { s with complete := false }
  let call : SparkSendCall := ⟨eventName, eventData, ttl, flags.value, s.self⟩
  let pre := [Event.setComplete false, Event.sparkSend call sparkAccepted]
  if sparkAccepted then
    (s, pre)
  else
    match s.completion with
    | some h => (s, pre ++ [Event.handlerCall h Error.UNKNOWN none])
    | none => (s, pre)

/-- The full overload `publish(eventName, eventData, ttl, flags1, flags2)`:
delegates to `publish_event(eventName, eventData, ttl, flags1 | flags2)`. -/
def publish_full (s : PublishCallback) (eventName : String) (eventData : Option String)
    (ttl : Int) (flags1 flags2 : PublishFlags) (sparkAccepted : Bool) :
    PublishCallback × List Event :=
  publish_event s eventName eventData ttl (PublishFlags.or flags1 flags2) sparkAccepted

/-- The overload `publish(eventName, eventData, flags1, flags2)`:
delegates to the full overload with `ttl = 60`. -/
def publish_nameData (s : PublishCallback) (eventName : String) (eventData : Option String)
    (flags1 flags2 : PublishFlags) (sparkAccepted : Bool) :
    PublishCallback × List Event :=
  publish_full s eventName eventData 60 flags1 flags2 sparkAccepted

/-- The overload `publish(eventName, flags1, flags2)`: delegates to the
two-data-argument overload with `eventData = NULL`. -/
def publish_nameFlags (s : PublishCallback) (eventName : String)
    (flags1 flags2 : PublishFlags) (sparkAccepted : Bool) :
    PublishCallback × List Event :=
  publish_nameData s eventName none flags1 flags2 sparkAccepted

/-- `isComplete()`: a const member, `return complete;`. Modelled in
state-passing style so that absence of state change is a statement: the
second component is the object after the call. -/
def isComplete (s : PublishCallback) : Bool × PublishCallback :=
  (s.complete, s)

/-- The outstanding query of the spec, realized as the negation of
`isComplete()` (the class itself exposes only `isComplete`). -/
def isOutstanding (s : PublishCallback) : Bool × PublishCallback :=
  (!(isComplete s).1, (isComplete s).2)

/-- `staticCallback(error, data, callbackData, reserved)`: the cast
`PublishCallback *This = (PublishCallback *) callbackData` resolves the
context pointer to the instance it addresses; `This` is that instance. If
`This->completion != NULL` it calls `This->completion(error, data)`, then
sets `This->complete = true`. The trace records the handler call (when
made) before the write of `complete`, as in the source. -/
def staticCallback (This : PublishCallback) (error : Int) (data : Option Nat)
    (_reserved : Nat) : PublishCallback × List Event :=
  let events :=
    match This.completion with
    | some h => [Event.handlerCall h error data]
    | none => []
  ({ This with complete := true }, events ++ [Event.setComplete true])

/-- One complete invocation attempt under the exactly-once contract of the
external primitive (spec section 6): `publish_event` runs with the
primitive returning `sparkAccepted`; if the primitive accepted, the
trampoline `staticCallback` later fires exactly once with the
primitive-supplied error code and payload and with the registered context;
if it rejected, no callback is ever delivered. The trace concatenates the
synchronous part and, when present, the asynchronous part. -/
def invokeRun (s : PublishCallback) (eventName : String) (eventData : Option String)
    (ttl : Int) (flags : PublishFlags) (sparkAccepted : Bool)
    (asyncError : Int) (asyncData : Option Nat) : PublishCallback × List Event :=
  let r1 := publish_event s eventName eventData ttl flags sparkAccepted
  if sparkAccepted then
    let r2 := staticCallback r1.1 asyncError asyncData 0
    (r2.1, r1.2 ++ r2.2)
  else
    r1

/-- The registration-record invariant of the spec data model: the record
holds its own size, the address of the static trampoline, and the back
pointer to this very instance. -/
def eventDataWellFormed (s : PublishCallback) : Prop :=
  s.eventData.size = sizeof_spark_send_event_data ∧
  s.eventData.handler_callback = FnPtr.staticCallbackAddr ∧
  s.eventData.handler_data = s.self

instance (s : PublishCallback) : Decidable (eventDataWellFormed s) := by
  unfold eventDataWellFormed
  infer_instance

/-! ## Theorems -/

/-- Shared helper: closed form of `publish_event` on any state, by cases
on the primitive result and the handler slot. -/
theorem publish_event_eq (s : PublishCallback) (n : String) (d : Option String)
    (t : Int) (f : PublishFlags) (acc : Bool) :
    publish_event s n d t f acc =
      ({ s with complete := false },
       [Event.setComplete false, Event.sparkSend ⟨n, d, t, f.value, s.self⟩ acc] ++
       (if acc then []
        else
          match s.completion with
          | some h => [Event.handlerCall h Error.UNKNOWN none]
          | none => [])) := by
  rcases s with ⟨self, ed, c, comp⟩
  cases acc <;> cases comp <;> simp [publish_event]

/-- Claim C1: for every invocation attempt with a handler set, the handler
runs exactly once: once synchronously when the primitive rejects, or once
via the trampoline when it accepts, never both and never zero times, under
the exactly-once contract of the external primitive as modelled by
`invokeRun`. -/
theorem handler_runs_exactly_once (s : PublishCallback) (n : String) (d : Option String)
    (t : Int) (f : PublishFlags) (acc : Bool) (e : Int) (ad : Option Nat) (h : Nat)
    (hset : s.completion = some h) :
    handlerCallCount (invokeRun s n d t f acc e ad).2 = 1 := by
  rcases s with ⟨self, ed, c, comp⟩
  cases hset
  cases acc <;>
    simp [invokeRun, publish_event, staticCallback, handlerCallCount, Event.isHandlerCall]

/-- Witness for C1 at a concrete adapter and inputs. -/
theorem handler_runs_exactly_once_witness :
    (PublishCallback.ctorWithCompletion 1 5).completion = some 5 ∧
    handlerCallCount
      (invokeRun (PublishCallback.ctorWithCompletion 1 5) "ev" none 60 ⟨0⟩ true 0 none).2 = 1 :=
  ⟨rfl, handler_runs_exactly_once _ "ev" none 60 ⟨0⟩ true 0 none 5 rfl⟩

/-- Claim C2: when the primitive rejects and a handler is set,
`publish_event` itself invokes the handler, synchronously within its own
trace, with `Error::UNKNOWN` and a NULL payload. -/
theorem rejected_publish_calls_handler_sync (s : PublishCallback) (n : String)
    (d : Option String) (t : Int) (f : PublishFlags) (h : Nat)
    (hset : s.completion = some h) :
    (publish_event s n d t f false).2 =
      [Event.setComplete false,
       Event.sparkSend ⟨n, d, t, f.value, s.self⟩ false,
       Event.handlerCall h Error.UNKNOWN none] := by
  rcases s with ⟨self, ed, c, comp⟩
  cases hset
  simp [publish_event]

/-- Witness for C2 at a concrete adapter and inputs. -/
theorem rejected_publish_calls_handler_sync_witness :
    (PublishCallback.ctorWithCompletion 1 5).completion = some 5 ∧
    (publish_event (PublishCallback.ctorWithCompletion 1 5) "ev" none 60 ⟨0⟩ false).2 =
      [Event.setComplete false,
       Event.sparkSend ⟨"ev", none, 60, 0, 1⟩ false,
       Event.handlerCall 5 Error.UNKNOWN none] :=
  ⟨rfl, rejected_publish_calls_handler_sync _ "ev" none 60 ⟨0⟩ 5 rfl⟩

/-- Counterexample to C3: at a concrete adapter with a handler set, after
`publish_event` with the primitive rejecting, `complete` is still false,
`isComplete` returns false and `isOutstanding` returns true, whereas the
claim asserts `isOutstanding` is false. -/
theorem rejected_publish_outstanding_cex :
    (PublishCallback.ctorWithCompletion 1 5).completion = some 5 ∧
    (isComplete (publish_event (PublishCallback.ctorWithCompletion 1 5) "ev" none 60 ⟨0⟩ false).1).1
      = false ∧
    (isOutstanding
      (publish_event (PublishCallback.ctorWithCompletion 1 5) "ev" none 60 ⟨0⟩ false).1).1
      = true := by
  decide

/-- Claim C3 as amended: after `publish_event` returns in the
synchronous-rejection case (handler set, handler has run once), the
adapter is still outstanding: `complete` remains false, `isComplete`
returns false and `isOutstanding` returns true; no branch of
`publish_event` sets `complete` to true. -/
theorem rejected_publish_leaves_outstanding (s : PublishCallback) (n : String)
    (d : Option String) (t : Int) (f : PublishFlags) (h : Nat)
    (hset : s.completion = some h) :
    handlerCallCount (publish_event s n d t f false).2 = 1 ∧
    (publish_event s n d t f false).1.complete = false ∧
    (isComplete (publish_event s n d t f false).1).1 = false ∧
    (isOutstanding (publish_event s n d t f false).1).1 = true := by
  rcases s with ⟨self, ed, c, comp⟩
  cases hset
  simp [publish_event, isComplete, isOutstanding, handlerCallCount, Event.isHandlerCall]

/-- Witness for the amended C3 at a concrete adapter and inputs. -/
theorem rejected_publish_leaves_outstanding_witness :
    (PublishCallback.ctorWithCompletion 2 7).completion = some 7 ∧
    (isOutstanding
      (publish_event (PublishCallback.ctorWithCompletion 2 7) "ev" none 60 ⟨0⟩ false).1).1
      = true :=
  ⟨rfl, (rejected_publish_leaves_outstanding _ "ev" none 60 ⟨0⟩ 7 rfl).2.2.2⟩

/-- Claim C4: the trampoline, invoked with the supplied error code and
payload on the adapter its context pointer resolves to, sets `complete`
to true; with a handler set the trace is exactly the handler call with
those very arguments followed by the settling write, and with no handler
it is the settling write alone. -/
theorem staticCallback_calls_handler_then_settles (This : PublishCallback) (e : Int)
    (d : Option Nat) (r : Nat) :
    (staticCallback This e d r).1.complete = true ∧
    (This.completion = none → (staticCallback This e d r).2 = [Event.setComplete true]) ∧
    (∀ h, This.completion = some h →
      (staticCallback This e d r).2 = [Event.handlerCall h e d, Event.setComplete true]) := by
  rcases This with ⟨self, ed, c, comp⟩
  cases comp <;> simp [staticCallback]

/-- Witness for C4 at a concrete adapter and trampoline arguments. -/
theorem staticCallback_calls_handler_then_settles_witness :
    (PublishCallback.ctorWithCompletion 2 7).completion = some 7 ∧
    (staticCallback (PublishCallback.ctorWithCompletion 2 7) 0 (some 3) 0).2 =
      [Event.handlerCall 7 0 (some 3), Event.setComplete true] :=
  ⟨rfl, (staticCallback_calls_handler_then_settles _ 0 (some 3) 0).2.2 7 rfl⟩

/-- Claim C5: every `publish_event` call first writes `complete = false`,
re-arming from any prior state, and then calls the external primitive with
the event name, data, ttl, raw flag value and the context pointer; when
the primitive accepts, `isOutstanding` is true immediately after
`publish_event` returns. -/
theorem publish_event_rearms_and_submits (s : PublishCallback) (n : String)
    (d : Option String) (t : Int) (f : PublishFlags) (acc : Bool) :
    (publish_event s n d t f acc).1 = { s with complete := false } ∧
    (publish_event s n d t f acc).2.take 2 =
      [Event.setComplete false, Event.sparkSend ⟨n, d, t, f.value, s.self⟩ acc] ∧
    (isOutstanding (publish_event s n d t f true).1).1 = true := by
  rcases s with ⟨self, ed, c, comp⟩
  cases acc <;> cases comp <;>
    simp [publish_event, isOutstanding, isComplete]


/-- Shared helper: the state `publish_event` returns is the input state
with `complete` cleared, whatever the primitive returned. -/
theorem publish_event_fst (s : PublishCallback) (n : String) (d : Option String)
    (t : Int) (f : PublishFlags) (acc : Bool) :
    (publish_event s n d t f acc).1 = { s with complete := false } := by
  rcases s with ⟨self, ed, c, comp⟩
  cases acc <;> cases comp <;> rfl

/-- Shared helper: the invariant of the registration record only mentions
`eventData` and `self`, so it survives a write to `complete`. -/
theorem eventDataWellFormed_setComplete (s : PublishCallback) (b : Bool)
    (h : eventDataWellFormed s) : eventDataWellFormed { s with complete := b } := h

/-- Claim C6: after either constructor, and preserved by every operation,
the registration record holds the size of `spark_send_event_data`, the
address of the static trampoline, and the back pointer to this very
instance. -/
theorem registrationRecord_invariant :
    (∀ self, eventDataWellFormed (PublishCallback.ctor self)) ∧
    (∀ self c, eventDataWellFormed (PublishCallback.ctorWithCompletion self c)) ∧
    (∀ s c, eventDataWellFormed s → eventDataWellFormed (withCallback s c)) ∧
    (∀ s n d t f acc, eventDataWellFormed s →
      eventDataWellFormed (publish_event s n d t f acc).1) ∧
    (∀ s n f1 f2 acc, eventDataWellFormed s →
      eventDataWellFormed (publish_nameFlags s n f1 f2 acc).1) ∧
    (∀ s n d f1 f2 acc, eventDataWellFormed s →
      eventDataWellFormed (publish_nameData s n d f1 f2 acc).1) ∧
    (∀ s n d t f1 f2 acc, eventDataWellFormed s →
      eventDataWellFormed (publish_full s n d t f1 f2 acc).1) ∧
    (∀ s, eventDataWellFormed s → eventDataWellFormed (isComplete s).2) ∧
    (∀ s e d r, eventDataWellFormed s → eventDataWellFormed (staticCallback s e d r).1) := by
  have hpe : ∀ s n d t f acc, eventDataWellFormed s →
      eventDataWellFormed (publish_event s n d t f acc).1 := by
    intro s n d t f acc h
    rw [publish_event_fst]
    exact eventDataWellFormed_setComplete s false h
  refine ⟨?_, ?_, ?_, hpe, ?_, ?_, ?_, ?_, ?_⟩
  · intro self
    exact ⟨rfl, rfl, rfl⟩
  · intro self c
    exact ⟨rfl, rfl, rfl⟩
  · intro s c h
    exact h
  · intro s n f1 f2 acc h
    exact hpe s n none 60 (PublishFlags.or f1 f2) acc h
  · intro s n d f1 f2 acc h
    exact hpe s n d 60 (PublishFlags.or f1 f2) acc h
  · intro s n d t f1 f2 acc h
    exact hpe s n d t (PublishFlags.or f1 f2) acc h
  · intro s h
    exact h
  · intro s e d r h
    exact eventDataWellFormed_setComplete s true h

/-- Witness for C6: the invariant holds at a concrete constructed adapter
and is preserved by a concrete `withCallback` and `publish_event`. -/
theorem registrationRecord_invariant_witness :
    eventDataWellFormed (PublishCallback.ctor 3) ∧
    eventDataWellFormed (withCallback (PublishCallback.ctor 3) 9) ∧
    eventDataWellFormed (publish_event (withCallback (PublishCallback.ctor 3) 9)
      "ev" none 60 ⟨0⟩ true).1 :=
  ⟨by decide,
   registrationRecord_invariant.2.2.1 (PublishCallback.ctor 3) 9 (by decide),
   registrationRecord_invariant.2.2.2.1 (withCallback (PublishCallback.ctor 3) 9)
     "ev" none 60 ⟨0⟩ true (by decide)⟩

/-- Counterexample to C7: at a concrete adapter with no handler, the
synchronous-rejection path of `publish_event` skips the handler but does
not settle: `complete` is still false and `isOutstanding` still returns
true afterwards, whereas the claim asserts every completion path settles
the adapter. -/
theorem no_handler_rejected_not_settled_cex :
    (PublishCallback.ctor 1).completion = none ∧
    handlerCallCount (publish_event (PublishCallback.ctor 1) "ev" none 60 ⟨0⟩ false).2 = 0 ∧
    (publish_event (PublishCallback.ctor 1) "ev" none 60 ⟨0⟩ false).1.complete = false ∧
    (isOutstanding (publish_event (PublishCallback.ctor 1) "ev" none 60 ⟨0⟩ false).1).1
      = true := by
  decide

/-- Claim C7 as amended: when no handler is set, both completion paths
skip handler invocation; the trampoline settles the adapter (`complete`
becomes true, `isOutstanding` returns false), but the
synchronous-rejection fallback inside `publish_event` leaves `complete`
false, so the adapter remains outstanding on that path. -/
theorem no_handler_paths (s : PublishCallback) (n : String) (d : Option String)
    (t : Int) (f : PublishFlags) (e : Int) (ad : Option Nat) (r : Nat)
    (hnone : s.completion = none) :
    handlerCallCount (publish_event s n d t f false).2 = 0 ∧
    (publish_event s n d t f false).1.complete = false ∧
    (isOutstanding (publish_event s n d t f false).1).1 = true ∧
    handlerCallCount (staticCallback s e ad r).2 = 0 ∧
    (staticCallback s e ad r).1.complete = true ∧
    (isOutstanding (staticCallback s e ad r).1).1 = false := by
  rcases s with ⟨self, ed, c, comp⟩
  cases hnone
  simp [publish_event, staticCallback, handlerCallCount, Event.isHandlerCall,
    isOutstanding, isComplete]

/-- Witness for the amended C7 at a concrete handlerless adapter. -/
theorem no_handler_paths_witness :
    (PublishCallback.ctor 4).completion = none ∧
    (staticCallback (PublishCallback.ctor 4) 0 none 0).1.complete = true :=
  ⟨rfl, (no_handler_paths _ "ev" none 60 ⟨0⟩ 0 none 0 rfl).2.2.2.2.1⟩

/-- Claim C9: the outstanding query, realized as the negation of
`isComplete`, returns the negation of the `complete` flag and is a pure
read: the object after either query is the object before it, so the
settle flag, the handler slot and the registration record are all
unchanged. -/
theorem isOutstanding_pure (s : PublishCallback) :
    (isComplete s).1 = s.complete ∧
    (isComplete s).2 = s ∧
    (isOutstanding s).1 = !s.complete ∧
    (isOutstanding s).2 = s :=
  ⟨rfl, rfl, rfl, rfl⟩

/-- Claim C10: each `publish` overload delegates exactly as the source
writes it: the name-and-flags overload equals the name-and-data overload
at NULL data, that one equals the full overload at `ttl = 60`, and the
full overload equals `publish_event` at the bitwise OR of the two flag
arguments; hence all overloads produce identical adapter state and an
identical call to the external primitive. -/
theorem publish_overloads_equivalent (s : PublishCallback) (n : String)
    (d : Option String) (t : Int) (f1 f2 : PublishFlags) (acc : Bool) :
    publish_nameFlags s n f1 f2 acc = publish_nameData s n none f1 f2 acc ∧
    publish_nameData s n d f1 f2 acc = publish_full s n d 60 f1 f2 acc ∧
    publish_full s n d t f1 f2 acc = publish_event s n d t (PublishFlags.or f1 f2) acc :=
  ⟨rfl, rfl, rfl⟩
